import Mathlib

/-!
Verification of the BrainSync Pro question-routing/history core
(`ProfessionalQASystem` in `src/app.py`).

The embedding models:
* the three prompt templates built in `create_chains` (app.py 105-145),
* the router `ask_question` (app.py 147-189),
* the history formatter `get_conversation_summary` (app.py 191-204),
* a session-trace runner for the append-only history invariant.

The external model collaborator (`template | llm` chain, `invoke`) is a
parameter `gen : String → Except String String`: `Except.ok answer` models a
successful generation (the `response.content` text), `Except.error e` models a
raised exception whose `str(e)` is `e`.  Wall-clock inputs
(`datetime.now().strftime(...)` and the rendered `round(time.time()-start, 2)`
value) are environment inputs, modelled by an `Env` record of the two strings
that end up stored in the history record.
-/

/-- One entry of `self.conversation_history`: the dict appended in
`ask_question` (app.py 176-182).  `processing_time` holds the rendering of the
rounded float (its numeric value never matters to the logic; it is only ever
interpolated into the summary text). -/
structure InteractionRecord where
  timestamp : String
  question : String
  answer : String
  processing_time : String
  chain_type : String
deriving Repr, DecidableEq

/-- The mutable session state owned by `ProfessionalQASystem`: the hand-rolled
`self.conversation_history` list (app.py 87).  The llm client, templates and
the unused `ConversationBufferWindowMemory` are fixed at construction and
never written after `__init__`, so they are not part of the mutable state. -/
structure QAState where
  conversation_history : List InteractionRecord
deriving Repr, DecidableEq

/-- `__init__` sets `self.conversation_history = []` (app.py 87). -/
def init_state : QAState :=
  { conversation_history := [] }

/-- Per-call environment inputs: the `datetime.now().strftime("%Y-%m-%d
%H:%M:%S")` timestamp and the rendered `round(time.time() - start_time, 2)`
processing time (app.py 172, 177, 180). -/
structure Env where
  timestamp : String
  processing_time : String
deriving Repr, DecidableEq

/-- Python `str.strip()` as used in the guard `if not question.strip()`
(app.py 151): drop leading and trailing whitespace characters. -/
def py_strip (s : String) : String :=
  String.mk (((s.data.dropWhile Char.isWhitespace).reverse.dropWhile
    Char.isWhitespace).reverse)

/-- The `qa_template` of `create_chains` (app.py 109-116) filled at its single
slot `{question}` — the source text has the placeholder where the argument is
spliced here. -/
def qa_template (question : String) : String :=
  "You are a knowledgeable AI assistant. Provide clear, accurate, and helpful answers.\n\nQuestion: "
    ++ question
    ++ "\n\nAnswer: Provide a comprehensive response that is informative and easy to understand."

/-- The `creative_template` (app.py 119-127) filled at `{request}` and
`{style}`. -/
def creative_template (request style : String) : String :=
  "You are a creative writing assistant. Create engaging and imaginative content.\n\nRequest: "
    ++ request
    ++ "\nStyle: "
    ++ style
    ++ "\n\nCreative Response:"

/-- The `analysis_template` (app.py 130-138) filled at `{topic}` and
`{focus}`. -/
def analysis_template (topic focus : String) : String :=
  "You are a professional analyst. Provide detailed analysis and insights.\n\nTopic: "
    ++ topic
    ++ "\nFocus: "
    ++ focus
    ++ "\n\nProfessional Analysis:"

/-- The chain dispatch of `ask_question` (app.py 157-170): each branch fills
its template with `question` (the `creative` and `analysis` branches pass the
fixed second-slot constants), and any unrecognized `chain_type` falls through
to the `qa` template (app.py 169-170). -/
def fill_prompt (chain_type question : String) : String :=
  if chain_type = "qa" then
    qa_template question
  else if chain_type = "creative" then
    creative_template question "engaging and creative"
  else if chain_type = "analysis" then
    analysis_template question "comprehensive analysis"
  else
    qa_template question

/-- `ProfessionalQASystem.ask_question` (app.py 147-189).  Returns
`(answer_text, ok, new_state)`.  The empty guard returns the fixed message
with no model call; on `Except.ok` the answer is returned and one record is
appended; on `Except.error e` the code builds
`f"Error processing question: \x7bstr(e)\x7d"` and leaves the history alone. -/
def ask_question (gen : String → Except String String) (env : Env)
    (st : QAState) (question : String) (chain_type : String) :
    String × Bool × QAState :=
  if py_strip question = "" then
    ("Please enter a valid question.", false, st)
  else
    match gen (fill_prompt chain_type question) with
    | Except.ok answer =>
        (answer, true,
          { conversation_history := st.conversation_history ++
              [{ timestamp := env.timestamp
                 question := question
                 answer := answer
                 processing_time := env.processing_time
                 chain_type := chain_type }] })
    | Except.error e =>
        ("Error processing question: " ++ e, false, st)

/-- `s` occurs contiguously inside `hay`. -/
def contains_substr (hay pat : String) : Prop :=
  ∃ s t, hay = s ++ (pat ++ t)

/-- The Python truncation idiom `s[:n] + ('...' if len(s) > n else '')` used
for questions (n = 100) and answers (n = 150) in `get_conversation_summary`
(app.py 200-201). -/
def py_truncate (s : String) (n : Nat) : String :=
  String.mk (s.data.take n) ++ (if n < s.length then "..." else "")

/-- One iteration of the summary loop body (app.py 199-202): the text appended
for entry number `i` and record `r`. -/
def render_interaction (i : Nat) (r : InteractionRecord) : String :=
  "**" ++ toString i ++ ". [" ++ r.timestamp ++ "]**\n"
    ++ "❓ **Q:** " ++ py_truncate r.question 100 ++ "\n"
    ++ "✅ **A:** " ++ py_truncate r.answer 150 ++ "\n"
    ++ "⏱️ *Processing time: " ++ r.processing_time ++ "s*\n\n"

/-- `get_conversation_summary` (app.py 191-204): the fixed message on empty
history, else the header followed by the loop over
`enumerate(self.conversation_history[-5:], 1)` accumulating `summary +=`
(Python `l[-5:]` is `drop (length - 5)` under truncated subtraction). -/
def get_conversation_summary (st : QAState) : String :=
  if st.conversation_history.isEmpty then
    "No conversation history available."
  else
    ((st.conversation_history.drop (st.conversation_history.length - 5)).enumFrom 1).foldl
      (fun acc p => acc ++ render_interaction p.1 p.2)
      ("📊 **Conversation Summary** ("
        ++ toString st.conversation_history.length ++ " interactions)\n\n")

/-- One request to the router: the question, the selected mode, and the
wall-clock inputs of that call. -/
structure Request where
  env : Env
  question : String
  chain_type : String
deriving Repr, DecidableEq

/-- A session: a sequence of `ask_question` invocations threaded through the
state, collecting each call's `(answer, ok)` output. -/
def run_session (gen : String → Except String String) (st : QAState) :
    List Request → QAState × List (String × Bool)
  | [] => (st, [])
  | r :: rs =>
      let out := ask_question gen r.env st r.question r.chain_type
      let rest := run_session gen out.2.2 rs
      (rest.1, (out.1, out.2.1) :: rest.2)

/-- The operations the UI/CLI collaborators trigger on the session: `submit`
(the `ask_question` call of `process_question`, app.py 467 / 572, and of the
CLI loop, app.py 685) and the summary view (`get_conversation_summary`,
app.py 678), which only reads the history. -/
inductive Op where
  | ask (env : Env) (question : String) (chain_type : String)
  | summary
deriving Repr, DecidableEq

/-- The output and successor state of one UI/CLI operation. -/
def step (gen : String → Except String String) (st : QAState) :
    Op → String × QAState
  | Op.ask env q ct =>
      let out := ask_question gen env st q ct
      (out.1, out.2.2)
  | Op.summary => (get_conversation_summary st, st)

/-- A concrete always-succeeding collaborator, for witnesses. -/
def gen_ok : String → Except String String :=
  fun _ => Except.ok "Artificial intelligence is the simulation of human intelligence by machines."

/-- A concrete failing collaborator: the chain raises an error whose `str(e)`
is a quota message, for witnesses and counterexamples. -/
def gen_fail : String → Except String String :=
  fun _ => Except.error "429 Resource has been exhausted"

/-- Concrete wall-clock inputs for witnesses. -/
def env0 : Env :=
  { timestamp := "2024-01-01 00:00:00", processing_time := "0.42" }

/-- Auxiliary: `dropWhile` consumes a list whose elements all satisfy the
predicate. -/
theorem list_dropWhile_all {α : Type} (p : α → Bool) :
    ∀ l : List α, l.all p = true → l.dropWhile p = [] := by
  intro l h
  induction l with
  | nil => rfl
  | cons a l ih =>
      rw [List.all_cons, Bool.and_eq_true] at h
      rw [List.dropWhile_cons, h.1]
      exact ih h.2

/-- Auxiliary: a string that is empty or all whitespace strips to `""`. -/
theorem py_strip_of_blank (s : String) (h : s.data.all Char.isWhitespace = true) :
    py_strip s = "" := by
  unfold py_strip
  rw [list_dropWhile_all _ _ h]
  rfl

/-- Auxiliary: `String.append` concatenates the underlying character lists. -/
theorem str_data_append (a b : String) : (a ++ b).data = a.data ++ b.data := rfl

/-- Auxiliary: string concatenation is associative. -/
theorem str_append_assoc (a b c : String) : a ++ b ++ c = a ++ (b ++ c) := by
  apply String.ext
  simp [str_data_append]

/-- Auxiliary: the empty string is a right identity. -/
theorem str_append_empty (s : String) : s ++ "" = s := by
  apply String.ext
  simp [str_data_append]

/-- C1: for every non-empty, non-whitespace question on which the external
model call succeeds, `ask_question` returns the model's answer with ok = true
and appends exactly one record — with the requested mode and the literal
question — to the conversation history, growing it by exactly 1. -/
theorem spec_C1 (gen : String → Except String String) (env : Env)
    (st : QAState) (question chain_type answer : String)
    (hq : py_strip question ≠ "")
    (hgen : gen (fill_prompt chain_type question) = Except.ok answer) :
    ask_question gen env st question chain_type =
      (answer, true,
        { conversation_history := st.conversation_history ++
            [{ timestamp := env.timestamp
               question := question
               answer := answer
               processing_time := env.processing_time
               chain_type := chain_type }] }) ∧
    (ask_question gen env st question chain_type).2.2.conversation_history.length =
      st.conversation_history.length + 1 := by
  have h : ask_question gen env st question chain_type =
      (answer, true,
        { conversation_history := st.conversation_history ++
            [{ timestamp := env.timestamp
               question := question
               answer := answer
               processing_time := env.processing_time
               chain_type := chain_type }] }) := by
    unfold ask_question
    rw [if_neg hq, hgen]
  refine ⟨h, ?_⟩
  rw [h]
  simp

theorem spec_C1_witness :
    ask_question gen_ok env0 init_state "What is AI?" "qa" =
      ("Artificial intelligence is the simulation of human intelligence by machines.",
        true,
        { conversation_history := init_state.conversation_history ++
            [{ timestamp := env0.timestamp
               question := "What is AI?"
               answer := "Artificial intelligence is the simulation of human intelligence by machines."
               processing_time := env0.processing_time
               chain_type := "qa" }] }) ∧
    (ask_question gen_ok env0 init_state "What is AI?" "qa").2.2.conversation_history.length =
      init_state.conversation_history.length + 1 :=
  spec_C1 gen_ok env0 init_state "What is AI?" "qa"
    "Artificial intelligence is the simulation of human intelligence by machines."
    (by decide) rfl

/-- C2: for every mode and every empty-or-whitespace-only question,
`ask_question` returns the fixed prompt-user message with ok = false, leaves
the history unchanged, and its result does not depend on the external
collaborator or the wall clock (no external call is made). -/
theorem spec_C2 (gen gen2 : String → Except String String) (env env2 : Env)
    (st : QAState) (question chain_type : String)
    (hq : question.data.all Char.isWhitespace = true) :
    ask_question gen env st question chain_type =
      ("Please enter a valid question.", false, st) ∧
    ask_question gen env st question chain_type =
      ask_question gen2 env2 st question chain_type := by
  have h := py_strip_of_blank question hq
  constructor
  · unfold ask_question
    rw [if_pos h]
  · unfold ask_question
    rw [if_pos h, if_pos h]

theorem spec_C2_witness :
    ask_question gen_ok env0 init_state "  " "creative" =
      ("Please enter a valid question.", false, init_state) ∧
    ask_question gen_ok env0 init_state "  " "creative" =
      ask_question gen_fail env0 init_state "  " "creative" :=
  spec_C2 gen_ok gen_fail env0 env0 init_state "  " "creative" (by decide)

/-- C3: for every non-empty question, when the external collaborator fails
with error `e`, `ask_question` returns a string describing the error with
ok = false and leaves the conversation history exactly as it was. -/
theorem spec_C3 (gen : String → Except String String) (env : Env)
    (st : QAState) (question chain_type e : String)
    (hq : py_strip question ≠ "")
    (hgen : gen (fill_prompt chain_type question) = Except.error e) :
    ask_question gen env st question chain_type =
      ("Error processing question: " ++ e, false, st) := by
  unfold ask_question
  rw [if_neg hq, hgen]

theorem spec_C3_witness :
    ask_question gen_fail env0 init_state "What is AI?" "qa" =
      ("Error processing question: 429 Resource has been exhausted", false, init_state) :=
  spec_C3 gen_fail env0 init_state "What is AI?" "qa"
    "429 Resource has been exhausted" (by decide) rfl

/-- C4-counterexample: the failure message is NOT the collaborator's error
text verbatim: with a collaborator failing with
`"429 Resource has been exhausted"`, `ask_question` returns
`"Error processing question: 429 Resource has been exhausted"`, which differs
from the bare error text. -/
theorem spec_C4_counterexample :
    (ask_question gen_fail env0 init_state "What is AI?" "qa").1 =
      "Error processing question: 429 Resource has been exhausted" ∧
    (ask_question gen_fail env0 init_state "What is AI?" "qa").1 ≠
      "429 Resource has been exhausted" := by
  constructor
  · rfl
  · decide

/-- C4 (amended): when the external collaborator fails with error text `e`,
the failure message returned to the caller is `e` prefixed with the fixed
marker `"Error processing question: "` (the error text is surfaced intact but
with that prefix, not verbatim), and ok = false. -/
theorem spec_C4 (gen : String → Except String String) (env : Env)
    (st : QAState) (question chain_type e : String)
    (hq : py_strip question ≠ "")
    (hgen : gen (fill_prompt chain_type question) = Except.error e) :
    (ask_question gen env st question chain_type).1 =
      "Error processing question: " ++ e ∧
    (ask_question gen env st question chain_type).2.1 = false := by
  unfold ask_question
  rw [if_neg hq, hgen]
  exact ⟨rfl, rfl⟩

theorem spec_C4_witness :
    (ask_question gen_fail env0 init_state "Explain quantum computing" "analysis").1 =
      "Error processing question: " ++ "429 Resource has been exhausted" ∧
    (ask_question gen_fail env0 init_state "Explain quantum computing" "analysis").2.1 = false :=
  spec_C4 gen_fail env0 init_state "Explain quantum computing" "analysis"
    "429 Resource has been exhausted" (by decide) rfl

/-- Auxiliary: one `ask_question` call grows the history by 1 when it reports
ok = true and leaves it untouched when it reports ok = false. -/
theorem ask_question_history_length (gen : String → Except String String)
    (env : Env) (st : QAState) (question chain_type : String) :
    (ask_question gen env st question chain_type).2.2.conversation_history.length =
      st.conversation_history.length +
        (if (ask_question gen env st question chain_type).2.1 then 1 else 0) := by
  unfold ask_question
  by_cases h : py_strip question = ""
  · rw [if_pos h]
    simp
  · rw [if_neg h]
    cases gen (fill_prompt chain_type question) with
    | ok a => simp
    | error e => rfl

/-- Auxiliary: over any request sequence, the history grows by exactly the
number of calls that reported ok = true. -/
theorem run_session_history_length (gen : String → Except String String)
    (reqs : List Request) :
    ∀ st : QAState,
      (run_session gen st reqs).1.conversation_history.length =
        st.conversation_history.length +
          (run_session gen st reqs).2.countP (fun o => o.2) := by
  induction reqs with
  | nil =>
      intro st
      rfl
  | cons r rs ih =>
      intro st
      simp only [run_session, List.countP_cons]
      rw [ih, ask_question_history_length]
      cases (ask_question gen r.env st r.question r.chain_type).2.1 <;> (simp; try omega)

/-- C5: in every session state and after every sequence of router
invocations, the conversation history length equals its starting length plus
the number of `ask_question` calls that returned ok = true; from a fresh
session it equals that count exactly, so ok = false calls never append. -/
theorem spec_C5 (gen : String → Except String String) (st : QAState)
    (reqs : List Request) :
    (run_session gen st reqs).1.conversation_history.length =
      st.conversation_history.length +
        (run_session gen st reqs).2.countP (fun o => o.2) ∧
    (run_session gen init_state reqs).1.conversation_history.length =
      (run_session gen init_state reqs).2.countP (fun o => o.2) := by
  refine ⟨run_session_history_length gen reqs st, ?_⟩
  have h := run_session_history_length gen reqs init_state
  simpa [init_state] using h

/-- C6: any unrecognized mode value silently falls back to the qa template:
the filled prompt equals the one a mode = "qa" call on the same question
builds, and the returned answer text and ok flag match the "qa" call's. -/
theorem spec_C6 (gen : String → Except String String) (env : Env)
    (st : QAState) (question mode : String)
    (h1 : mode ≠ "qa") (h2 : mode ≠ "creative") (h3 : mode ≠ "analysis") :
    fill_prompt mode question = fill_prompt "qa" question ∧
    (ask_question gen env st question mode).1 =
      (ask_question gen env st question "qa").1 ∧
    (ask_question gen env st question mode).2.1 =
      (ask_question gen env st question "qa").2.1 := by
  have hf : fill_prompt mode question = fill_prompt "qa" question := by
    simp [fill_prompt, h1, h2, h3]
  refine ⟨hf, ?_, ?_⟩ <;>
    · unfold ask_question
      rw [hf]
      by_cases h : py_strip question = ""
      · rw [if_pos h, if_pos h]
      · rw [if_neg h, if_neg h]
        cases gen (fill_prompt "qa" question) <;> rfl

theorem spec_C6_witness :
    fill_prompt "chat" "Hello" = fill_prompt "qa" "Hello" ∧
    (ask_question gen_ok env0 init_state "Hello" "chat").1 =
      (ask_question gen_ok env0 init_state "Hello" "qa").1 ∧
    (ask_question gen_ok env0 init_state "Hello" "chat").2.1 =
      (ask_question gen_ok env0 init_state "Hello" "qa").2.1 :=
  spec_C6 gen_ok env0 init_state "Hello" "chat" (by decide) (by decide) (by decide)

/-- C7: for every non-empty question, the filled creative prompt contains the
question and the literal style constant "engaging and creative", and the
filled analysis prompt contains the question and the literal focus constant
"comprehensive analysis". -/
theorem spec_C7 (question : String) (_hq : py_strip question ≠ "") :
    (contains_substr (fill_prompt "creative" question) question ∧
     contains_substr (fill_prompt "creative" question) "engaging and creative") ∧
    (contains_substr (fill_prompt "analysis" question) question ∧
     contains_substr (fill_prompt "analysis" question) "comprehensive analysis") := by
  have hc : fill_prompt "creative" question =
      creative_template question "engaging and creative" := by
    simp [fill_prompt]
  have ha : fill_prompt "analysis" question =
      analysis_template question "comprehensive analysis" := by
    simp [fill_prompt]
  refine ⟨⟨?_, ?_⟩, ?_, ?_⟩
  · refine ⟨"You are a creative writing assistant. Create engaging and imaginative content.\n\nRequest: ",
      "\nStyle: " ++ ("engaging and creative" ++ "\n\nCreative Response:"), ?_⟩
    rw [hc]
    simp [creative_template, str_append_assoc]
  · refine ⟨"You are a creative writing assistant. Create engaging and imaginative content.\n\nRequest: "
        ++ (question ++ "\nStyle: "),
      "\n\nCreative Response:", ?_⟩
    rw [hc]
    simp [creative_template, str_append_assoc]
  · refine ⟨"You are a professional analyst. Provide detailed analysis and insights.\n\nTopic: ",
      "\nFocus: " ++ ("comprehensive analysis" ++ "\n\nProfessional Analysis:"), ?_⟩
    rw [ha]
    simp [analysis_template, str_append_assoc]
  · refine ⟨"You are a professional analyst. Provide detailed analysis and insights.\n\nTopic: "
        ++ (question ++ "\nFocus: "),
      "\n\nProfessional Analysis:", ?_⟩
    rw [ha]
    simp [analysis_template, str_append_assoc]

theorem spec_C7_witness :
    (contains_substr (fill_prompt "creative" "Write a haiku") "Write a haiku" ∧
     contains_substr (fill_prompt "creative" "Write a haiku") "engaging and creative") ∧
    (contains_substr (fill_prompt "analysis" "Write a haiku") "Write a haiku" ∧
     contains_substr (fill_prompt "analysis" "Write a haiku") "comprehensive analysis") :=
  spec_C7 "Write a haiku" (by decide)

/-- C8: on empty history the summary is the fixed no-history message; on a
3-record history it renders all 3 records as entries 1-3; on a 7-record
history it renders exactly records 3 through 7 as entries 1 through 5, in
original chronological order (most-recent-last). -/
theorem spec_C8 :
    get_conversation_summary init_state = "No conversation history available." ∧
    (∀ r1 r2 r3 : InteractionRecord,
      get_conversation_summary { conversation_history := [r1, r2, r3] } =
        "📊 **Conversation Summary** (3 interactions)\n\n"
          ++ render_interaction 1 r1 ++ render_interaction 2 r2
          ++ render_interaction 3 r3) ∧
    (∀ r1 r2 r3 r4 r5 r6 r7 : InteractionRecord,
      get_conversation_summary { conversation_history := [r1, r2, r3, r4, r5, r6, r7] } =
        "📊 **Conversation Summary** (7 interactions)\n\n"
          ++ render_interaction 1 r3 ++ render_interaction 2 r4
          ++ render_interaction 3 r5 ++ render_interaction 4 r6
          ++ render_interaction 5 r7) := by
  refine ⟨rfl, ?_, ?_⟩ <;>
    · intros
      simp only [get_conversation_summary, List.isEmpty_cons, List.length_cons,
        List.length_nil, List.drop, List.enumFrom, List.foldl, Bool.false_eq_true,
        if_false]
      rfl

/-- C9: the summary renders each record with the question sliced to its first
100 characters, with "..." appended exactly when the stored question is longer
than 100 characters (a question of at most 100 characters is shown in full
with no ellipsis), and likewise the answer at 150 characters. -/
theorem spec_C9 :
    (∀ (n : Nat) (s : String), s.length ≤ n → py_truncate s n = s) ∧
    (∀ (n : Nat) (s : String), n < s.length →
      py_truncate s n = String.mk (s.data.take n) ++ "...") ∧
    (∀ (i : Nat) (r : InteractionRecord),
      render_interaction i r =
        "**" ++ toString i ++ ". [" ++ r.timestamp ++ "]**\n"
          ++ "❓ **Q:** " ++ py_truncate r.question 100 ++ "\n"
          ++ "✅ **A:** " ++ py_truncate r.answer 150 ++ "\n"
          ++ "⏱️ *Processing time: " ++ r.processing_time ++ "s*\n\n") := by
  refine ⟨?_, ?_, fun i r => rfl⟩
  · intro n s h
    unfold py_truncate
    rw [if_neg (by omega), str_append_empty, List.take_of_length_le h]
  · intro n s h
    unfold py_truncate
    rw [if_pos h]

/-- A 101-character string, for exercising the over-the-limit branch. -/
def long_question : String :=
  String.mk (List.replicate 101 'a')

theorem spec_C9_witness :
    py_truncate "What is machine learning?" 100 = "What is machine learning?" ∧
    py_truncate long_question 100 =
      String.mk (long_question.data.take 100) ++ "..." :=
  ⟨spec_C9.1 100 "What is machine learning?" (by decide),
   spec_C9.2.1 100 long_question (by decide)⟩

/-- C10: the summary view is read-only and deterministic: as a session
operation it returns the formatted summary and leaves the session state
exactly as it was, and two summaries of states with the same conversation
history are the same string. -/
theorem spec_C10 (gen : String → Except String String) (st st2 : QAState)
    (h : st.conversation_history = st2.conversation_history) :
    (step gen st Op.summary).2 = st ∧
    get_conversation_summary st = get_conversation_summary st2 := by
  refine ⟨rfl, ?_⟩
  obtain ⟨l⟩ := st
  obtain ⟨l2⟩ := st2
  cases h
  rfl

theorem spec_C10_witness :
    (step gen_ok init_state Op.summary).2 = init_state ∧
    get_conversation_summary init_state = get_conversation_summary init_state :=
  spec_C10 gen_ok init_state init_state rfl
